import Mathlib

/-!
Verification of the qsiprep interface modules `qsiprep/interfaces/gradients.py`
and `qsiprep/interfaces/images.py`.

The Python source is shallowly embedded below.  Machine floats are modelled as
exact rationals (`ℚ`); file contents are modelled by the numeric payload a
`np.savetxt`/`np.loadtxt` round trip carries; file *paths* are modelled as
strings (or a small inductive type) because several routines manipulate paths
without opening the files.  Calls to external command-line tools
(ANTs, FSL) are modelled as opaque-to-the-logic function parameters: the value
such a call returns is an arbitrary function argument of the model, so nothing
is assumed about it.  Relevant numpy / nibabel / dipy library routines that the
source calls are embedded from their library sources; each such definition
carries a comment naming the library function it embeds.
-/

namespace QsiPrep

/-! ## numpy helpers -/

/-- numpy `np.argmin` for a list of naturals: index of the first occurrence of
the minimum.  numpy raises `ValueError` on an empty array; emptiness is checked
by the callers below (as in `np.argmin`, which only this file's
`match_transforms` reaches). -/
def np_argmin : List ℕ → ℕ
  | [] => 0
  | [_] => 0
  | x :: y :: ys =>
    if x ≤ (y :: ys).getD (np_argmin (y :: ys)) 0 then 0 else np_argmin (y :: ys) + 1

/-- Python `int(x)` on a float, and numpy's `%i` text format and
`astype(int)`: truncation toward zero. -/
def pyTrunc (q : ℚ) : ℤ := q.num / q.den

theorem np_argmin_lt_length (l : List ℕ) (h : l ≠ []) : np_argmin l < l.length := by
  induction l with
  | nil => simp at h
  | cons x xs ih =>
    cases xs with
    | nil => simp [np_argmin]
    | cons y ys =>
      simp only [np_argmin]
      split
      · simp
      · have := ih (by simp)
        simpa [Nat.succ_lt_succ_iff] using this

theorem np_argmin_le (l : List ℕ) (k : ℕ) (hk : k < l.length) :
    l.getD (np_argmin l) 0 ≤ l.getD k 0 := by
  induction l generalizing k with
  | nil => simp at hk
  | cons x xs ih =>
    cases xs with
    | nil =>
      have : k = 0 := by simpa using Nat.lt_one_iff.mp (by simpa using hk)
      simp [np_argmin, this]
    | cons y ys =>
      by_cases hle : x ≤ (y :: ys).getD (np_argmin (y :: ys)) 0
      · simp only [np_argmin, if_pos hle]
        cases k with
        | zero => simp
        | succ k' =>
          have hk' : k' < (y :: ys).length := by simpa using hk
          have h2 := ih k' hk'
          calc (x :: y :: ys).getD 0 0 = x := rfl
            _ ≤ (y :: ys).getD (np_argmin (y :: ys)) 0 := hle
            _ ≤ (y :: ys).getD k' 0 := h2
            _ = (x :: y :: ys).getD (k' + 1) 0 := rfl
      · simp only [np_argmin, if_neg hle]
        cases k with
        | zero =>
          have hlt : (y :: ys).getD (np_argmin (y :: ys)) 0 < x := Nat.not_le.mp hle
          simpa using le_of_lt hlt
        | succ k' =>
          have hk' : k' < (y :: ys).length := by simpa using hk
          simpa using ih k' hk'

theorem np_argmin_first (l : List ℕ) (k : ℕ) (hk : k < np_argmin l) :
    l.getD (np_argmin l) 0 < l.getD k 0 := by
  induction l generalizing k with
  | nil => simp [np_argmin] at hk
  | cons x xs ih =>
    cases xs with
    | nil => simp [np_argmin] at hk
    | cons y ys =>
      by_cases hle : x ≤ (y :: ys).getD (np_argmin (y :: ys)) 0
      · simp only [np_argmin, if_pos hle] at hk
        omega
      · simp only [np_argmin, if_neg hle] at hk ⊢
        cases k with
        | zero => simpa using Nat.not_le.mp hle
        | succ k' =>
          have hk' : k' < np_argmin (y :: ys) := by omega
          simpa using ih k' hk'

/-! ## C1 — `match_transforms` (gradients.py lines 279-298)

```python
def match_transforms(dwi_files, transforms, b0_indices):
    original_b0_indices = np.array(b0_indices)
    num_dwis = len(dwi_files)
    num_transforms = len(transforms)
    if num_dwis == num_transforms:
        return transforms
    if not len(transforms) == len(b0_indices):
        raise Exception('number of transforms does not match number of b0 images')
    nearest_affines = []
    for index in range(num_dwis):
        nearest_b0_num = np.argmin(np.abs(index - original_b0_indices))
        this_transform = transforms[nearest_b0_num]
        nearest_affines.append(this_transform)
    return nearest_affines
```
-/

/-- Distance used by `match_transforms`: `np.abs(index - original_b0_indices)`
evaluated at one b0 index. -/
def b0Dist (index : ℕ) (b : ℤ) : ℕ := ((index : ℤ) - b).natAbs

/-- Shallow embedding of `match_transforms`.  A raised Python exception is an
`Except.error`.  `np.argmin` of an empty array raises `ValueError`; that path
is reachable exactly when the loop runs (`num_dwis > 0`) with empty
`b0_indices`. -/
def match_transforms (dwi_files transforms : List String) (b0_indices : List ℤ) :
    Except String (List String) :=
  let num_dwis := dwi_files.length
  if transforms.length = num_dwis then .ok transforms
  else if transforms.length ≠ b0_indices.length then
    .error "number of transforms does not match number of b0 images"
  else if num_dwis ≠ 0 ∧ b0_indices = [] then
    .error "ValueError: attempt to get argmin of an empty sequence"
  else
    .ok ((List.range num_dwis).map (fun index =>
      transforms.getD (np_argmin (b0_indices.map (b0Dist index))) ""))

/-! ## C2 — `split_bvals_bvecs` (images.py lines 442-455), `concatenate_bvals`
and `concatenate_bvecs` (gradients.py lines 301-315)

```python
def split_bvals_bvecs(bval_file, bvec_file, runtime):
    bvals, bvecs = read_bvals_bvecs(bval_file, bvec_file)
    ...
    for nsample, (bval, bvec) in enumerate(zip(bvals[:, None], bvecs)):
        ...
        np.savetxt(bval_fname, bval)
        np.savetxt(bvec_fname, bvec)
        ...

def concatenate_bvals(bval_list, out_file):
    collected_vals = []
    for bval_file in bval_list:
        collected_vals.append(np.loadtxt(bval_file, ndmin=1))
    final_bvals = np.concatenate(collected_vals).squeeze()
    np.savetxt(out_file, final_bvals, fmt=str("%i"))

def concatenate_bvecs(input_files):
    collected_vecs = []
    for bvec_file in input_files:
        collected_vecs.append(np.loadtxt(bvec_file))
    return np.row_stack(collected_vecs)
```

A text file's numeric payload is a list of rationals (`np.savetxt` writes with
`%.18e` by default, which round-trips an IEEE double exactly; floats are exact
rationals here).  `np.concatenate(...).squeeze()` of the per-file 1-d arrays
needs a 0-d/1-d distinction: squeezing a length-1 1-d array yields a 0-d
array, which `np.savetxt` rejects (`ValueError: Expected 1D or 2D array, got
0D array instead`). -/

/-- A numpy array of dimension ≤ 1, as produced by
`np.concatenate(collected_vals).squeeze()` in `concatenate_bvals`. -/
inductive NpArr
  | scalar (q : ℚ)
  | arr1d (l : List ℚ)
deriving DecidableEq

/-- numpy `.squeeze()` on a 1-d array: a length-1 array becomes 0-d. -/
def np_squeeze (l : List ℚ) : NpArr :=
  match l with
  | [q] => .scalar q
  | l => .arr1d l

/-- `np.savetxt(out_file, final_bvals, fmt="%i")`: rejects 0-d input, writes
each value through Python's `%i` (truncation toward zero).  The written file's
payload is returned. -/
def np_savetxt_i (a : NpArr) : Except String (List ℚ) :=
  match a with
  | .scalar _ => .error "ValueError: Expected 1D or 2D array, got 0D array instead"
  | .arr1d l => .ok (l.map (fun q => ((pyTrunc q : ℤ) : ℚ)))

/-- `split_bvals_bvecs`, bval half: each per-volume bval file holds the single
row `bvals[n:n+1]` of `bvals[:, None]`. -/
def split_bvals (bvals : List ℚ) : List (List ℚ) := bvals.map (fun b => [b])

/-- `split_bvals_bvecs`, bvec half: each per-volume bvec file holds one
3-element row of the (N, 3) `bvecs` array (written by `np.savetxt` as one
value per line, read back by `np.loadtxt` as a shape-(3,) array). -/
def split_bvecs (bvecs : List (List ℚ)) : List (List ℚ) := bvecs

/-- `concatenate_bvals`: loads every per-volume file with `ndmin=1`,
concatenates, squeezes, and writes with `fmt="%i"`.  Result is the payload of
`out_file`. -/
def concatenate_bvals (bval_list : List (List ℚ)) : Except String (List ℚ) :=
  np_savetxt_i (np_squeeze (bval_list.flatten))

/-- `concatenate_bvecs`: loads every per-volume file (a shape-(3,) array) and
`np.row_stack`s them.  `np.row_stack` of an empty list raises
`ValueError: need at least one array to concatenate`. -/
def concatenate_bvecs (input_files : List (List ℚ)) : Except String (List (List ℚ)) :=
  if input_files = [] then .error "ValueError: need at least one array to concatenate"
  else .ok input_files

/-! ## C3 — `ComposeTransforms._run_interface` transform-stage assembly
(gradients.py lines 111-156)

```python
        dwi_hmc_affines = match_transforms(dwi_files, b0_hmc_affines, original_b0_indices)
        image_transforms = [dwi_hmc_affines]
        image_transform_names = ["hmc"]
        sdc_unwarp = self.inputs.fieldwarps
        if isdefined(sdc_unwarp):
            if len(sdc_unwarp) == num_dwis:
                image_transforms.append(sdc_unwarp)
                image_transform_names.append("fieldwarp")
            elif len(sdc_unwarp) == 1:
                image_transforms.append(sdc_unwarp * num_dwis)
                image_transform_names.append("fieldwarp")
        image_transforms.append([self.inputs.unwarped_dwi_ref_to_t1w_affine] * num_dwis)
        image_transform_names.append("b0 to t1")
        mni_xform = self.inputs.t1_2_mni_forward_transform
        if isdefined(mni_xform):
            assert len(mni_xform) == 2
            image_transforms.append([mni_xform[0]] * num_dwis)
            image_transforms.append([mni_xform[1]] * num_dwis)
            image_transform_names += ['mni affine', 'mni warp']
        assert all([len(xform_list) == len(image_transforms[0]) for
                    xform_list in image_transforms])
        image_transforms = image_transforms[::-1]
        xfms_list = []
        for image_num in range(num_dwis):
            xfms_list.append([xfm[image_num] for xfm in image_transforms])
```

An undefined (`not isdefined`) optional input is `none`.  A failed `assert` is
an `Except.error "AssertionError"`. -/

/-- The per-volume transform chains and the stage names assembled by
`ComposeTransforms._run_interface` before the resampling calls. -/
structure ComposeStages where
  names : List String
  xfms_list : List (List String)
deriving DecidableEq

/-- Stage-assembly part of `ComposeTransforms._run_interface`. -/
def composeTransformsStages (dwi_files : List String) (b0_indices : List ℤ)
    (hmc_to_ref_affines : List String) (fieldwarps : Option (List String))
    (unwarped_dwi_ref_to_t1w_affine : String) (t1_2_mni : Option (List String)) :
    Except String ComposeStages :=
  match match_transforms dwi_files hmc_to_ref_affines b0_indices with
  | .error e => .error e
  | .ok dwi_hmc_affines =>
    let num_dwis := dwi_files.length
    let base : List (List String) × List String := ([dwi_hmc_affines], ["hmc"])
    let withSdc : List (List String) × List String :=
      match fieldwarps with
      | none => base
      | some sdc_unwarp =>
        if sdc_unwarp.length = num_dwis then
          (base.1 ++ [sdc_unwarp], base.2 ++ ["fieldwarp"])
        else if sdc_unwarp.length = 1 then
          (base.1 ++ [List.replicate num_dwis (sdc_unwarp.getD 0 "")],
           base.2 ++ ["fieldwarp"])
        else base
    let withT1 : List (List String) × List String :=
      (withSdc.1 ++ [List.replicate num_dwis unwarped_dwi_ref_to_t1w_affine],
       withSdc.2 ++ ["b0 to t1"])
    match t1_2_mni with
    | some mni_xform =>
      if mni_xform.length = 2 then
        let ts := withT1.1 ++ [List.replicate num_dwis (mni_xform.getD 0 ""),
                               List.replicate num_dwis (mni_xform.getD 1 "")]
        let ns := withT1.2 ++ ["mni affine", "mni warp"]
        if ts.all (fun xform_list => xform_list.length = (ts.headD []).length) then
          .ok ⟨ns, (List.range num_dwis).map (fun image_num =>
                 ts.reverse.map (fun xfm => xfm.getD image_num ""))⟩
        else .error "AssertionError"
      else .error "AssertionError"
    | none =>
      if withT1.1.all (fun xform_list => xform_list.length = (withT1.1.headD []).length) then
        .ok ⟨withT1.2, (List.range num_dwis).map (fun image_num =>
               withT1.1.reverse.map (fun xfm => xfm.getD image_num ""))⟩
      else .error "AssertionError"

/-! ## nibabel orientation machinery (used by `to_lps`, `Conform`, `ConformDwi`)

Embedded from `nibabel.orientations` / `nibabel.spatialimages`:

* `io_orientation(affine)` returns, for each input axis, the closest output
  axis and a sign (one `(out_axis, sign)` row per input axis).  The library
  normalizes the 3×3 part column-wise and takes its polar decomposition before
  picking, per input axis, the output axis of largest absolute coefficient
  (first occurrence on ties), zeroing the chosen output row afterwards.  For
  an affine whose normalized linear part is a signed permutation — every
  affine appearing in this development — the polar factor *is* that signed
  permutation, and neither the column normalization nor the polar step changes
  the argmax or the sign, so both are elided here.
* `ornt_transform(start, end)` maps each start row to the end row with the
  same output axis (defined below for orientation arrays whose output axes are
  a permutation, which `axcodes2ornt`/`io_orientation` always produce).
* `inv_ornt_aff(ornt, shape) = undo_flip @ undo_reorder` exactly as in the
  library.
* `img.as_reoriented(ornt)` returns an image with affine
  `img.affine @ inv_ornt_aff(ornt, img.shape)`, with the data axes transposed
  and flipped accordingly (shape permuted), and with header zooms recomputed
  from the new affine (the `Nifti1Image` constructor re-derives pixdims from
  the affine), i.e. permuted likewise.
-/

/-- 4×4 rational matrix (an on-disk affine; floats are exact rationals). -/
def M4 : Type := Fin 4 → Fin 4 → ℚ

/-- 3×3 rational matrix. -/
def M3 : Type := Fin 3 → Fin 3 → ℚ

/-- Matrix product of 4×4 matrices (`np.dot`). -/
def mmul4 (a b : M4) : M4 := fun i k =>
  a i 0 * b 0 k + a i 1 * b 1 k + a i 2 * b 2 k + a i 3 * b 3 k

/-- The 4×4 identity (`np.eye(4)`). -/
def eye4 : M4 := fun i j => if i = j then 1 else 0

/-- An orientation array: row `i` is the `(output axis, sign)` pair for input
axis `i`; signs are `±1`. -/
def Ornt : Type := Fin 3 → Fin 3 × ℤ

/-- numpy `np.argmax` over three values: first occurrence of the maximum. -/
def np_argmax (v : Fin 3 → ℚ) : Fin 3 :=
  if v 0 ≥ v 1 ∧ v 0 ≥ v 2 then 0 else if v 1 ≥ v 2 then 1 else 2

/-- Zero out one row of a 3×3 matrix (`R[out_ax, :] = 0`). -/
def zeroRow (R : M3) (r : Fin 3) : M3 := fun i j => if i = r then 0 else R i j

/-- The 3×3 linear part of an affine. -/
def lin3 (A : M4) : M3 := fun i j => A i.castSucc j.castSucc

/-- `nibabel.io_orientation` on the signed-permutation-times-positive-diagonal
affine class (see the section comment). -/
def io_orientation (A : M4) : Ornt :=
  let R0 := lin3 A
  let o0 := np_argmax (fun i => |R0 i 0|)
  let s0 : ℤ := if R0 o0 0 < 0 then -1 else 1
  let R1 := zeroRow R0 o0
  let o1 := np_argmax (fun i => |R1 i 1|)
  let s1 : ℤ := if R1 o1 1 < 0 then -1 else 1
  let R2 := zeroRow R1 o1
  let o2 := np_argmax (fun i => |R2 i 2|)
  let s2 : ℤ := if R2 o2 2 < 0 then -1 else 1
  fun i => if i = 0 then (o0, s0) else if i = 1 then (o1, s1) else (o2, s2)

/-- The six axis-direction codes. -/
inductive Axcode
  | R | L | A | P | S | I
deriving DecidableEq

/-- `nibabel.orientations.ornt2axcodes` with the default labels
`(('L','R'), ('P','A'), ('I','S'))`. -/
def codeOf (p : Fin 3) (s : ℤ) : Axcode :=
  if p = 0 then (if s = 1 then .R else .L)
  else if p = 1 then (if s = 1 then .A else .P)
  else (if s = 1 then .S else .I)

/-- `ornt2axcodes`: per input axis, the label of the output direction it
points along. -/
def ornt2axcodes (o : Ornt) : Fin 3 → Axcode := fun i => codeOf (o i).1 (o i).2

/-- `nibabel.aff2axcodes = ornt2axcodes ∘ io_orientation`. -/
def aff2axcodes (A : M4) : Fin 3 → Axcode := ornt2axcodes (io_orientation A)

/-- `nibabel.orientations.axcodes2ornt` with the default labels. -/
def axcodes2ornt (c : Fin 3 → Axcode) : Ornt := fun i =>
  match c i with
  | .R => (0, 1)
  | .L => (0, -1)
  | .A => (1, 1)
  | .P => (1, -1)
  | .S => (2, 1)
  | .I => (2, -1)

/-- The canonical target codes `('L', 'P', 'S')`. -/
def lpsCodes : Fin 3 → Axcode := fun i => if i = 0 then .L else if i = 1 then .P else .S

/-- `nibabel.orientations.ornt_transform`: row `i` of the result pairs start
row `i` with the end row carrying the same output axis.  (For the valid
orientation arrays used here that end row always exists; the final branch is
then exact.) -/
def ornt_transform (start_ornt end_ornt : Ornt) : Ornt := fun i =>
  let p := (start_ornt i).1
  let j : Fin 3 := if (end_ornt 0).1 = p then 0 else if (end_ornt 1).1 = p then 1 else 2
  (j, if (start_ornt i).2 = (end_ornt j).2 then 1 else -1)

/-- `undo_reorder = np.eye(4)[list(ornt[:, 0]) + [3], :]`. -/
def undo_reorder (o : Ornt) : M4 := fun i j =>
  if h : (i : ℕ) < 3 then (if (j : ℕ) = ((o ⟨i, h⟩).1 : ℕ) then 1 else 0)
  else (if (j : ℕ) = 3 then 1 else 0)

/-- `undo_flip`: diagonal of the signs (and 1), with translation entries
`sign * center - center` for `center = -(shape - 1) / 2`. -/
def undo_flip (o : Ornt) (shape : Fin 3 → ℕ) : M4 := fun i j =>
  if h : (i : ℕ) < 3 then
    let s : ℚ := ((o ⟨i, h⟩).2 : ℚ)
    let c : ℚ := -(((shape ⟨i, h⟩ : ℕ) : ℚ) - 1) / 2
    if (j : ℕ) = (i : ℕ) then s
    else if (j : ℕ) = 3 then s * c - c
    else 0
  else (if (j : ℕ) = 3 then 1 else 0)

/-- `nibabel.orientations.inv_ornt_aff(ornt, shape)`. -/
def inv_ornt_aff (o : Ornt) (shape : Fin 3 → ℕ) : M4 :=
  mmul4 (undo_flip o shape) (undo_reorder o)

/-- Permute data per an orientation transform: output axis `k` receives input
axis `i` where `ornt[i, 0] = k` (`apply_orientation`'s transpose). -/
def permByOrnt {α : Type} (t : Ornt) (f : Fin 3 → α) : Fin 3 → α := fun k =>
  if (t 0).1 = k then f 0 else if (t 1).1 = k then f 1 else f 2

/-- NIfTI spatial units as returned by `header.get_xyzt_units()[0]`. -/
inductive XyzUnit
  | meter | mm | micron | unknown
deriving DecidableEq

/-- The data of a nibabel spatial image that this development uses: affine,
array shape, header zooms (consistent with the affine: the zooms are the
column norms of its linear part), and the header's spatial unit. -/
structure NImage where
  affine : M4
  shape : Fin 3 → ℕ
  zooms : Fin 3 → ℚ
  xyzUnit : XyzUnit

/-- `to_lps` (images.py lines 465-478): reorient to `('L','P','S')` axis codes
unless already there (in which case the input object is returned unchanged). -/
def to_lps (img : NImage) : NImage :=
  if aff2axcodes img.affine = lpsCodes then img
  else
    let input_orientation := axcodes2ornt (aff2axcodes img.affine)
    let desired_orientation := axcodes2ornt lpsCodes
    let transform_orientation := ornt_transform input_orientation desired_orientation
    { affine := mmul4 img.affine (inv_ornt_aff transform_orientation img.shape)
      shape := permByOrnt transform_orientation img.shape
      zooms := permByOrnt transform_orientation img.zooms
      xyzUnit := img.xyzUnit }

/-- `np.isclose` on scalars: `|x - y| <= atol + rtol * |y|`. -/
def np_isclose (rtol atol x y : ℚ) : Bool := decide (|x - y| ≤ atol + rtol * |y|)

/-- `np.allclose` on 4×4 matrices with numpy defaults
(`rtol=1e-5`, `atol=1e-8`), as the proposition it decides. -/
def np_allclose4 (a b : M4) : Prop :=
  ∀ i j, |a i j - b i j| ≤ 1 / 100000000 + (1 / 100000) * |b i j|

/-- `np.allclose(zooms, target_zooms, atol=atol)` on 3-vectors
(`rtol` keeps its default `1e-5`). -/
def np_allclose3 (atol : ℚ) (a b : Fin 3 → ℚ) : Bool :=
  np_isclose (1 / 100000) atol (a 0) (b 0) &&
    np_isclose (1 / 100000) atol (a 1) (b 1) &&
    np_isclose (1 / 100000) atol (a 2) (b 2)

/-- Determinant of a 3×3 matrix. -/
def det3fn (m : Fin 3 → Fin 3 → ℚ) : ℚ :=
  m 0 0 * (m 1 1 * m 2 2 - m 1 2 * m 2 1)
    - m 0 1 * (m 1 0 * m 2 2 - m 1 2 * m 2 0)
    + m 0 2 * (m 1 0 * m 2 1 - m 1 1 * m 2 0)

/-- Minor of a 4×4 matrix: delete row `r` and column `c`. -/
def minor4 (A : M4) (r c : Fin 4) : Fin 3 → Fin 3 → ℚ := fun i j =>
  A (r.succAbove i) (c.succAbove j)

/-- Determinant of a 4×4 matrix (first-row Laplace expansion). -/
def det4 (A : M4) : ℚ :=
  A 0 0 * det3fn (minor4 A 0 0) - A 0 1 * det3fn (minor4 A 0 1)
    + A 0 2 * det3fn (minor4 A 0 2) - A 0 3 * det3fn (minor4 A 0 3)

/-- `np.linalg.inv` on 4×4 matrices, as the exact adjugate inverse (the
library computes the same value up to floating-point rounding). -/
def np_inv4 (A : M4) : M4 := fun i j =>
  ((-1 : ℚ) ^ ((i : ℕ) + (j : ℕ)) * det3fn (minor4 A j i)) / det4 A

/-! ## C4 — `Conform._run_interface` (images.py lines 309-376)

```python
        orig_img = nb.load(fname)
        reoriented = to_lps(orig_img)
        target_zooms = np.array(self.inputs.target_zooms)
        target_shape = np.array(self.inputs.target_shape)
        target_span = target_shape * target_zooms
        zooms = np.array(reoriented.header.get_zooms()[:3])
        shape = np.array(reoriented.shape[:3])
        ornt_xfm = nb.orientations.inv_ornt_aff(
            nb.io_orientation(reoriented.affine), orig_img.shape)
        target_affine = reoriented.affine.copy()
        conform_xfm = np.eye(4)
        xyz_unit = reoriented.header.get_xyzt_units()[0]
        if xyz_unit == 'unknown':
            xyz_unit = 'mm'
        atol = {'meter': 1e-5, 'mm': 0.01, 'micron': 10}[xyz_unit]
        rescale = not np.allclose(zooms, target_zooms, atol=atol)
        resize = not np.all(shape == target_shape)
        if rescale or resize:
            if rescale:
                scale_factor = target_zooms / zooms
                target_affine[:3, :3] = reoriented.affine[:3, :3].dot(np.diag(scale_factor))
            if resize:
                size_factor = target_span / (zooms * shape)
                offset = (reoriented.affine[:3, 3] * size_factor - reoriented.affine[:3, 3])
                target_affine[:3, 3] = reoriented.affine[:3, 3] + offset.astype(int)
            data = nli.resample_img(reoriented, target_affine, target_shape).get_data()
            conform_xfm = np.linalg.inv(reoriented.affine).dot(target_affine)
            reoriented = reoriented.__class__(data, target_affine, reoriented.header)
        transform = ornt_xfm.dot(conform_xfm)
        assert np.allclose(orig_img.affine.dot(transform), target_affine)
```
-/

/-- The affine outputs of one `Conform` run: the derived transform `T`, the
target (conformed) affine, and the final `assert np.allclose(...)` condition. -/
structure ConformResult where
  transform : M4
  target_affine : M4
  assert_ok : Prop

/-- The `target_affine` mutations of `Conform._run_interface` (the
`rescale` / `resize` branch bodies). -/
def conform_target_affine (reoriented : NImage) (target_zooms : Fin 3 → ℚ)
    (target_shape : Fin 3 → ℕ) (rescale resize : Bool) : M4 := fun i j =>
  if h : (i : ℕ) < 3 then
    if hj : (j : ℕ) < 3 then
      if rescale then
        reoriented.affine i j * (target_zooms ⟨j, hj⟩ / reoriented.zooms ⟨j, hj⟩)
      else reoriented.affine i j
    else
      -- j = 3 (translation column)
      if resize then
        let fi : Fin 3 := ⟨i, h⟩
        let size_factor : ℚ := ((target_shape fi : ℕ) : ℚ) * target_zooms fi /
          (reoriented.zooms fi * ((reoriented.shape fi : ℕ) : ℚ))
        let offset : ℚ := reoriented.affine i 3 * size_factor - reoriented.affine i 3
        reoriented.affine i 3 + ((pyTrunc offset : ℤ) : ℚ)
      else reoriented.affine i j
  else reoriented.affine i j

/-- Shallow embedding of `Conform._run_interface` (affine part). -/
def conformRun (img : NImage) (target_zooms : Fin 3 → ℚ) (target_shape : Fin 3 → ℕ) :
    ConformResult :=
  let reoriented := to_lps img
  let ornt_xfm := inv_ornt_aff (io_orientation reoriented.affine) img.shape
  let xyz_unit : XyzUnit := if img.xyzUnit = .unknown then .mm else img.xyzUnit
  let atol : ℚ := match xyz_unit with
    | .meter => 1 / 100000
    | .mm => 1 / 100
    | .micron => 10
    | .unknown => 1 / 100
  let rescale : Bool := ! np_allclose3 atol reoriented.zooms target_zooms
  let resize : Bool := ! (decide (reoriented.shape 0 = target_shape 0) &&
    decide (reoriented.shape 1 = target_shape 1) &&
    decide (reoriented.shape 2 = target_shape 2))
  let target_affine : M4 :=
    if rescale || resize then
      conform_target_affine reoriented target_zooms target_shape rescale resize
    else reoriented.affine
  let conform_xfm : M4 :=
    if rescale || resize then mmul4 (np_inv4 reoriented.affine) target_affine
    else eye4
  let transform := mmul4 ornt_xfm conform_xfm
  { transform := transform
    target_affine := target_affine
    assert_ok := np_allclose4 (mmul4 img.affine transform) target_affine }

/-- An image already in `('L','P','S')` orientation: affine
`diag(-1, -1, 1, 1)`, shape `(2, 2, 2)`, unit zooms, millimeter units. -/
def lpsTestImage : NImage where
  affine := fun i j => if i = j then (if (i : ℕ) < 2 then -1 else 1) else 0
  shape := fun _ => 2
  zooms := fun _ => 1
  xyzUnit := .mm

/-- An image in `('R','A','S')` orientation: identity affine, shape
`(2, 2, 2)`, unit zooms, millimeter units. -/
def rasTestImage : NImage where
  affine := eye4
  shape := fun _ => 2
  zooms := fun _ => 1
  xyzUnit := .mm

/-! ## C5 — `ConformDwi._run_interface` (images.py lines 403-439)

```python
        input_axcodes = nb.aff2axcodes(input_img.affine)
        new_axcodes = ('L', 'P', 'S')
        if not input_axcodes == new_axcodes:
            input_orientation = nb.orientations.axcodes2ornt(input_axcodes)
            desired_orientation = nb.orientations.axcodes2ornt(new_axcodes)
            transform_orientation = nb.orientations.ornt_transform(
                        input_orientation, desired_orientation)
            reoriented_img = input_img.as_reoriented(transform_orientation)
            ...
            bvec_array = np.loadtxt(bvec_fname)
            if not bvec_array.shape[0] == transform_orientation.shape[0]:
                raise ValueError("Unrecognized bvec format")
            output_array = np.zeros_like(bvec_array)
            for this_axnum, (axnum, flip) in enumerate(transform_orientation):
                output_array[this_axnum] = bvec_array[int(axnum)] * flip
            np.savetxt(out_bvec_fname, output_array, fmt="%.8f ")
            ...
        else:
            ...
        self._results['bval_file'] = bval_fname
```
-/

/-- The bvec-flipping loop of `ConformDwi`: output row `i` is the input row
`transform_orientation[i, 0]` scaled by the sign `transform_orientation[i, 1]`;
raises `ValueError` when the row count differs from the orientation array's. -/
def conformDwi_flip_row (transform_orientation : Ornt) (bvec_rows : List (List ℚ))
    (this_axnum : Fin 3) : List ℚ :=
  (bvec_rows.getD ((transform_orientation this_axnum).1 : ℕ) []).map
    (fun q => q * ((transform_orientation this_axnum).2 : ℚ))

def conformDwi_flip_bvecs (transform_orientation : Ornt) (bvec_rows : List (List ℚ)) :
    Except String (List (List ℚ)) :=
  if bvec_rows.length ≠ 3 then .error "ValueError: Unrecognized bvec format"
  else .ok [conformDwi_flip_row transform_orientation bvec_rows 0,
            conformDwi_flip_row transform_orientation bvec_rows 1,
            conformDwi_flip_row transform_orientation bvec_rows 2]

/-- The gradient-table outputs of a `ConformDwi` run. -/
structure ConformDwiResult where
  bvec_rows : List (List ℚ)
  bvals : List ℚ
deriving DecidableEq

/-- Shallow embedding of `ConformDwi._run_interface` (gradient-table part; the
bval file is registered unmodified on every path). -/
def conformDwi (img : NImage) (bvec_rows : List (List ℚ)) (bvals : List ℚ) :
    Except String ConformDwiResult :=
  let input_axcodes := aff2axcodes img.affine
  if input_axcodes = lpsCodes then .ok ⟨bvec_rows, bvals⟩
  else
    let transform_orientation :=
      ornt_transform (axcodes2ornt input_axcodes) (axcodes2ornt lpsCodes)
    match conformDwi_flip_bvecs transform_orientation bvec_rows with
    | .error e => .error e
    | .ok rows => .ok ⟨rows, bvals⟩

/-! ## C6 — `ConcatRPESplits._run_interface` (images.py lines 121-174)

```python
        self._results['dwi_files'] = plus_images + minus_images
        self._results['bval_files'] = plus_bvals + minus_bvals
        self._results['bvec_files'] = plus_bvecs + minus_bvecs
        self._results['b0_images'] = plus_b0_images + minus_b0_images
        self._results['b0_indices'] = plus_b0_indices + [
            num_plus + idx for idx in minus_b0_indices]
        self._results['original_grouping'] = ['plus'] * num_plus + ['minus'] * num_minus
        if isdefined(plus_hmc_to_ref_warp) and isdefined(minus_hmc_to_ref_warp):
            self._results['to_dwi_ref_warps'] = [plus_hmc_to_ref_warp] * num_plus + \
                [minus_hmc_to_ref_warp] * num_minus
        combined_affines = []
        for affine_num, hmc_aff_plus in enumerate(plus_hmc_affines):
            combined_affines.append(
                compose_affines(self.inputs.b0_ref_image,
                                [plus_hmc_to_ref_affine, hmc_aff_plus],
                                runtime.cwd + "/combined_hmc_affine_plus_%03d.mat" % affine_num))
        for affine_num, hmc_aff_minus in enumerate(minus_hmc_affines):
            combined_affines.append(...)
        self._results['to_dwi_ref_affines'] = combined_affines
```

`compose_affines` comes from the repository's `.itk` module, which is not part
of the given sources; it invokes an external registration tool and returns the
output path.  It is therefore a function parameter of the model. -/

/-- Python `"%03d" % n`. -/
def pad3 (n : ℕ) : String :=
  if n < 10 then "00" ++ toString n else if n < 100 then "0" ++ toString n else toString n

/-- One split RPE series, as fed to `ConcatRPESplits`. -/
structure RPESeries where
  dwi : List String
  bvec : List String
  bval : List String
  b0_images : List String
  b0_indices : List ℤ
  hmc_affines : List String
  to_ref_affine : String
  to_ref_warp : Option String

/-- The outputs of `ConcatRPESplits._run_interface`. -/
structure RPEOut where
  dwi_files : List String
  bvec_files : List String
  bval_files : List String
  b0_images : List String
  b0_indices : List ℤ
  original_grouping : List String
  to_dwi_ref_warps : Option (List String)
  to_dwi_ref_affines : List String
deriving DecidableEq

/-- Shallow embedding of `ConcatRPESplits._run_interface`.  `compose` is the
external `compose_affines(ref, transform_stack, out_path)` helper (returns the
output path). -/
def concatRPESplits (compose : String → List String → String → String)
    (cwd b0_ref_image : String) (plus minus : RPESeries) : RPEOut :=
  let num_plus := plus.dwi.length
  let num_minus := minus.dwi.length
  { dwi_files := plus.dwi ++ minus.dwi
    bval_files := plus.bval ++ minus.bval
    bvec_files := plus.bvec ++ minus.bvec
    b0_images := plus.b0_images ++ minus.b0_images
    b0_indices := plus.b0_indices ++ minus.b0_indices.map (fun idx => (num_plus : ℤ) + idx)
    original_grouping :=
      List.replicate num_plus "plus" ++ List.replicate num_minus "minus"
    to_dwi_ref_warps :=
      match plus.to_ref_warp, minus.to_ref_warp with
      | some pw, some mw =>
        some (List.replicate num_plus pw ++ List.replicate num_minus mw)
      | _, _ => none
    to_dwi_ref_affines :=
      plus.hmc_affines.enum.map (fun p =>
        compose b0_ref_image [plus.to_ref_affine, p.2]
          (cwd ++ "/combined_hmc_affine_plus_" ++ pad3 p.1 ++ ".mat")) ++
      minus.hmc_affines.enum.map (fun p =>
        compose b0_ref_image [minus.to_ref_affine, p.2]
          (cwd ++ "/combined_hmc_affine_minus_" ++ pad3 p.1 ++ ".mat")) }

/-! ## C7 — `reorient_tensor_image` per-voxel extraction
(gradients.py lines 452-465)

```python
    def tensor_from_vec(vec):
        """[dxx, dxy, dyy, dxz, dyz, dzz]."""
        return np.array([
            [vec[0], vec[1], vec[3]],
            [vec[1], vec[2], vec[4]],
            [vec[3], vec[4], vec[5]]
        ])

    for nrow, row in enumerate(reoriented_tensors):
        row_tensor = tensor_from_vec(row)
        evals, evecs = decompose_tensor(row_tensor)
        reoriented_vectors[nrow] = evecs[:, 0]

    output_data[mask_data] = normalized_vector(reoriented_vectors)
```

`dipy.reconst.dti.decompose_tensor(tensor, min_diffusivity=0)` is

```python
    eigenvals, eigenvecs = np.linalg.eigh(tensor)
    order = eigenvals.argsort()[::-1]
    eigenvecs = eigenvecs[:, order]
    eigenvals = eigenvals[order]
    eigenvals = eigenvals.clip(min=min_diffusivity)
    return eigenvals, eigenvecs
```

`np.linalg.eigh` itself (LAPACK) is not executable here; it is replaced by its
contract: it returns eigenvalues in ascending order with matching eigenvector
columns (`EighSpec` below).  Everything after that call is embedded exactly.
`dipy.core.geometry.normalized_vector(v)` is `v / ||v||`: a positive scalar
rescaling of each row. -/

/-- `tensor_from_vec`: the 3×3 symmetric matrix
`[[v0, v1, v3], [v1, v2, v4], [v3, v4, v5]]` built from the 6 stored
components `[dxx, dxy, dyy, dxz, dyz, dzz]`. -/
def tensor_from_vec (v : Fin 6 → ℚ) : M3 := fun i j =>
  if i = 0 then (if j = 0 then v 0 else if j = 1 then v 1 else v 3)
  else if i = 1 then (if j = 0 then v 1 else if j = 1 then v 2 else v 4)
  else (if j = 0 then v 3 else if j = 1 then v 4 else v 5)

/-- numpy `argsort` on three values, ascending and stable. -/
def np_argsort3 (v : Fin 3 → ℚ) : Fin 3 → Fin 3 :=
  if v 0 ≤ v 1 then
    if v 1 ≤ v 2 then ![0, 1, 2]
    else if v 0 ≤ v 2 then ![0, 2, 1]
    else ![2, 0, 1]
  else
    if v 0 ≤ v 2 then ![1, 0, 2]
    else if v 1 ≤ v 2 then ![1, 2, 0]
    else ![2, 1, 0]

/-- The post-`eigh` part of `dipy.reconst.dti.decompose_tensor` with its
default `min_diffusivity=0`: reorder by `argsort()[::-1]` (largest first) and
clip the eigenvalues at 0. -/
def decompose_tensor (eigenvals : Fin 3 → ℚ) (eigenvecs : M3) : (Fin 3 → ℚ) × M3 :=
  let a := np_argsort3 eigenvals
  let order : Fin 3 → Fin 3 := ![a 2, a 1, a 0]
  (fun i => max (eigenvals (order i)) 0, fun r c => eigenvecs r (order c))

/-- Matrix-vector product for 3×3 matrices. -/
def mulVec3 (M : M3) (v : Fin 3 → ℚ) : Fin 3 → ℚ := fun i =>
  M i 0 * v 0 + M i 1 * v 1 + M i 2 * v 2

/-- Column `j` of a 3×3 matrix. -/
def col3 (M : M3) (j : Fin 3) : Fin 3 → ℚ := fun i => M i j

/-- The contract of `np.linalg.eigh` on a symmetric 3×3 matrix: eigenvalues in
ascending order, one eigenvector per column. -/
def EighSpec (M : M3) (eigenvals : Fin 3 → ℚ) (eigenvecs : M3) : Prop :=
  eigenvals 0 ≤ eigenvals 1 ∧ eigenvals 1 ≤ eigenvals 2 ∧
    ∀ j, mulVec3 M (col3 eigenvecs j) = fun i => eigenvals j * eigenvecs i j

/-- The vector the loop stores for one masked voxel: `evecs[:, 0]` of the
`decompose_tensor` output (before the final `normalized_vector` rescaling). -/
def reoriented_vector (eigenvals : Fin 3 → ℚ) (eigenvecs : M3) : Fin 3 → ℚ :=
  col3 (decompose_tensor eigenvals eigenvecs).2 0

/-! ## C8 — `local_bvec_rotation` final assembly (gradients.py lines 481-513)

```python
def local_bvec_rotation(original_bvecs, warp_transforms, mask_image, runtime, output_fname):
    prefix = os.path.join(runtime.cwd, "local_bvec_")
    ...
    rotated_vec_files = []
    for vecnum, (original_bvec, warp_file) in enumerate(zip(original_bvecs, warp_transforms)):
        num_prefix = prefix + "%03d_" % vecnum
        out_fname = num_prefix + "rotated.nii.gz"
        if np.sum(original_bvec**2) == 0:
            b0_image.to_filename(out_fname)
            rotated_vec_files.append(out_fname)
            commands.append("B0: No rotation")
            continue
        tensor_fname = create_tensor_image(mask_img, original_bvec, num_prefix)
        rotated_vector_fname, rotate_cmd = reorient_tensor_image(...)
        commands.append(rotate_cmd)
        rotated_vec_files.append(out_fname)
    concatenated = np.stack([img.get_data() for img in rotated_vec_files], -1)
    nb.Nifti1Image(concatenated.astype('<f4'), mask_img.affine).to_filename(output_fname)
    for temp_file in rotated_vec_files:
        os.remove(temp_file)
    return rotated_vec_files, commands
```

`rotated_vec_files` collects *paths* (Python `str`), and the stacking
comprehension calls `.get_data()` on those strings without `nb.load`, which
raises `AttributeError` at the first element. -/

/-- Python attribute access `img.get_data()` where `img` is a `str`: always an
`AttributeError`. -/
def pyStrGetData (_img : String) : Except String Unit :=
  .error "AttributeError: str object has no attribute get_data"

/-- The `ReorientTensorImage` command line issued for one non-b0 volume
(`reorient_tensor_image`, gradients.py lines 430-439; the tensor input path
comes from `create_tensor_image`, line 407). -/
def reorientTensorCmd (numPfx warp_file : String) : String :=
  "ReorientTensorImage 3 " ++ (numPfx ++ "_tensor.nii") ++ " " ++
    (numPfx ++ "reoriented_tensor.nii") ++ " " ++ warp_file

/-- Shallow embedding of `local_bvec_rotation`: the per-volume loop produces
one output path and one command per zipped `(bvec, warp)` pair; the assembly
step then evaluates `[img.get_data() for img in rotated_vec_files]`. -/
def local_bvec_rotation (original_bvecs : List (Fin 3 → ℚ))
    (warp_transforms : List String) (cwd : String) :
    Except String (List String × List String) :=
  let pfx := cwd ++ "/local_bvec_"
  let items := (original_bvecs.zip warp_transforms).enum.map (fun p =>
    let numPfx := pfx ++ pad3 p.1 ++ "_"
    let out_fname := numPfx ++ "rotated.nii.gz"
    if (p.2.1 0) ^ 2 + (p.2.1 1) ^ 2 + (p.2.1 2) ^ 2 = 0 then
      (out_fname, "B0: No rotation")
    else (out_fname, reorientTensorCmd numPfx p.2.2))
  let rotated_vec_files := items.map Prod.fst
  let commands := items.map Prod.snd
  match rotated_vec_files.mapM pyStrGetData with
  | .error e => .error e
  | .ok _ =>
    if rotated_vec_files = [] then .error "ValueError: need at least one array to stack"
    else .ok (rotated_vec_files, commands)

/-! ## C9 — `IntraModalMerge._run_interface` (images.py lines 215-268)

```python
        in_files = self.inputs.in_files
        ...
        if self.inputs.to_lps:
            in_files = [reorient(inf, newpath=runtime.cwd)
                        for inf in in_files]
        if len(in_files) == 1:
            filenii = nb.load(in_files[0])
            filedata = filenii.get_data()
            if filedata.ndim == 5:
                sqdata = np.squeeze(filedata)
                if sqdata.ndim == 5:
                    raise RuntimeError('Input image (%s) is 5D' % in_files[0])
                else:
                    in_files = [fname_presuffix(in_files[0], suffix='_squeezed', ...)]
                    ...
            if np.squeeze(nb.load(in_files[0]).get_data()).ndim < 4:
                self._results['out_file'] = in_files[0]
                self._results['out_avg'] = in_files[0]
                return runtime
            in_files = in_files[0]
        else:
            magmrg = fsl.Merge(dimension='t', in_files=self.inputs.in_files)
            in_files = magmrg.run().outputs.merged_file
        mcflirt = fsl.MCFLIRT(cost='normcorr', save_mats=True, save_plots=True,
                              ref_vol=0, in_file=in_files)
```

File identity is what matters here, so files are a small inductive type:
`reorient` writes a fresh `_lps` file, the squeeze writes a fresh `_squeezed`
file, and `fsl.Merge` writes a fresh merged file.  Image dimensionalities are
oracle parameters. -/

/-- Distinct file identities flowing through `IntraModalMerge`. -/
inductive PFile
  | source (name : String)
  | lpsOf (f : PFile)
  | squeezed (f : PFile)
  | merged (fs : List PFile)

/-- What `IntraModalMerge._run_interface` does with its files, up to the
`mcflirt` call. -/
structure IntraModalPlan where
  reoriented : List PFile
  merge_in_files : Option (List PFile)
  mcflirt_in_file : Option PFile
  passthrough : Option PFile

/-- Shallow embedding of the file flow of `IntraModalMerge._run_interface`.
`ndim f` is `nb.load(f).get_data().ndim`; `squeezedNdim f` is
`np.squeeze(nb.load(f).get_data()).ndim`. -/
def intraModalMerge (inputs : List PFile) (to_lps_flag : Bool)
    (ndim squeezedNdim : PFile → ℕ) : Except String IntraModalPlan :=
  let in_files0 := if to_lps_flag then inputs.map PFile.lpsOf else inputs
  if in_files0.length = 1 then
    let f0 := in_files0.headD (.source "")
    if ndim f0 = 5 then
      if squeezedNdim f0 = 5 then .error "RuntimeError: Input image is 5D"
      else
        let f1 := PFile.squeezed f0
        if squeezedNdim f1 < 4 then .ok ⟨in_files0, none, none, some f1⟩
        else .ok ⟨in_files0, none, some f1, none⟩
    else
      if squeezedNdim f0 < 4 then .ok ⟨in_files0, none, none, some f0⟩
      else .ok ⟨in_files0, none, some f0, none⟩
  else
    .ok ⟨in_files0, some inputs, some (PFile.merged inputs), none⟩

/-! ## C10 — `bvec_rotation` / `aattp_rotate_vec` (gradients.py lines 318-359)

```python
def bvec_rotation(original_bvecs, transforms, output_file, runtime):
    aattp_rotated = []
    commands = []
    for bvec, transform in zip(original_bvecs, transforms):
        vec, cmd = aattp_rotate_vec(bvec, transform, runtime)
        aattp_rotated.append(vec)
        commands.append(cmd)
    rotated_vecs = np.row_stack(aattp_rotated)
    np.savetxt(output_file, rotated_vecs.T, fmt=str("%.8f"))
    return commands

def aattp_rotate_vec(orig_vec, transform, runtime):
    if (orig_vec**2).sum() == 0:
        return orig_vec, "b0: No rotation"
    ...
    cmd = "antsApplyTransformsToPoints --dimensionality 3 --input " + orig_txt + \
          " --output " + rotated_txt + " " + transforms
    os.system(cmd)
    rotated_vec = np.loadtxt(rotated_txt, skiprows=1, delimiter=",")[:, :3]
    rotated_unit_vec = unit_vector(rotated_vec[1] - rotated_vec[0])
    return rotated_unit_vec, cmd
```

The external `antsApplyTransformsToPoints` round trip — write the two points,
run the tool, read back, renormalize — is the model's `rotate` function
parameter; nothing is assumed about it.  The output bvec file's payload is the
list of (column) vectors `np.savetxt` writes. -/

/-- `aattp_rotate_vec`: b0 vectors pass through unrotated; otherwise the
external-tool round trip `rotate` is applied and the issued command recorded.
Path suffixes follow `fname_presuffix(transform, suffix=...)`. -/
def aattp_rotate_vec (rotate : (Fin 3 → ℚ) → String → (Fin 3 → ℚ))
    (orig_vec : Fin 3 → ℚ) (transform : String) : (Fin 3 → ℚ) × String :=
  if (orig_vec 0) ^ 2 + (orig_vec 1) ^ 2 + (orig_vec 2) ^ 2 = 0 then
    (orig_vec, "b0: No rotation")
  else
    (rotate orig_vec transform,
     "antsApplyTransformsToPoints --dimensionality 3 --input " ++
       (transform ++ "_pre_rotation.csv") ++ " --output " ++
       (transform ++ "_post_rotation.csv") ++ " --transform [" ++ transform ++ ", 1]")

/-- Shallow embedding of `bvec_rotation`: the zip pairs bvecs with transforms
positionally; `np.row_stack` of an empty list raises `ValueError`.  Returns
(payload of the written bvec file as its column list, command log). -/
def bvec_rotation (rotate : (Fin 3 → ℚ) → String → (Fin 3 → ℚ))
    (original_bvecs : List (Fin 3 → ℚ)) (transforms : List String) :
    Except String (List (Fin 3 → ℚ) × List String) :=
  let pairs := original_bvecs.zip transforms
  let aattp_rotated := pairs.map (fun p => (aattp_rotate_vec rotate p.1 p.2).1)
  let commands := pairs.map (fun p => (aattp_rotate_vec rotate p.1 p.2).2)
  if aattp_rotated = [] then .error "ValueError: need at least one array to concatenate"
  else .ok (aattp_rotated, commands)

/-! # Theorems -/

/-! ## Shared helper lemmas -/

theorem map_getD_nat (f : ℤ → ℕ) (l : List ℤ) (k : ℕ) (hk : k < l.length) :
    (l.map f).getD k 0 = f (l.getD k 0) := by
  rw [List.getD_eq_getElem _ _ (by simpa using hk), List.getD_eq_getElem _ _ hk,
    List.getElem_map]

theorem range_map_getD (n : ℕ) (f : ℕ → String) (i : ℕ) (hi : i < n) :
    ((List.range n).map f).getD i "" = f i := by
  rw [List.getD_eq_getElem _ _ (by simpa using hi), List.getElem_map, List.getElem_range]

/-! ## C1 -/

/-- The claimed contract of `match_transforms`: with `M` transforms, `N`
volumes and the b0 index list, (i) `M = N` returns the transforms unchanged;
(ii) `M ≠ N` and `M ≠ #b0` raises; (iii) otherwise each volume index `i` is
bound to the transform of a b0 index minimizing `|i - b0|`, the earliest-listed
minimizer (numpy `argmin` first occurrence), which is the numerically lowest
minimizing b0 index whenever the b0 list is sorted ascending (as the pipeline
produces it). -/
def MatchTransformsClaim (dwi_files transforms : List String) (b0_indices : List ℤ) : Prop :=
  (transforms.length = dwi_files.length →
    match_transforms dwi_files transforms b0_indices = .ok transforms) ∧
  (transforms.length ≠ dwi_files.length → transforms.length ≠ b0_indices.length →
    ∃ msg, match_transforms dwi_files transforms b0_indices = .error msg) ∧
  (transforms.length ≠ dwi_files.length → transforms.length = b0_indices.length →
    ∃ out, match_transforms dwi_files transforms b0_indices = .ok out ∧
      out.length = dwi_files.length ∧
      ∀ i, i < dwi_files.length →
        ∃ j, j < b0_indices.length ∧
          out.getD i "" = transforms.getD j "" ∧
          (∀ k, k < b0_indices.length →
            b0Dist i (b0_indices.getD j 0) ≤ b0Dist i (b0_indices.getD k 0)) ∧
          (∀ k, k < j → b0Dist i (b0_indices.getD j 0) < b0Dist i (b0_indices.getD k 0)) ∧
          (List.Sorted (· ≤ ·) b0_indices →
            ∀ k, k < b0_indices.length →
              b0Dist i (b0_indices.getD k 0) = b0Dist i (b0_indices.getD j 0) →
              b0_indices.getD j 0 ≤ b0_indices.getD k 0))

/-- Claim C1: `match_transforms` returns the transform list unchanged when its
length matches the volume count; raises when its length matches neither the
volume count nor the b0 count; and otherwise binds each volume index to the
transform of the nearest b0 index, first-listed minimizer on ties (the lowest
b0 index, since the b0 index list is ascending). -/
theorem C1_match_transforms (dwi_files transforms : List String) (b0_indices : List ℤ)
    (hb0 : b0_indices ≠ []) :
    MatchTransformsClaim dwi_files transforms b0_indices := by
  refine ⟨fun hMN => ?_, fun hMN hMB => ?_, fun hMN hMB => ?_⟩
  · rw [match_transforms, if_pos hMN]
  · rw [match_transforms, if_neg hMN, if_pos hMB]
    exact ⟨_, rfl⟩
  · rw [match_transforms, if_neg hMN, if_neg (by simpa using hMB),
      if_neg (by simp [hb0])]
    refine ⟨_, rfl, by simp, fun i hi => ?_⟩
    set dists := b0_indices.map (b0Dist i) with hdists
    have hdlen : dists.length = b0_indices.length := by simp [hdists]
    have hdne : dists ≠ [] := by
      simp only [hdists, ne_eq, List.map_eq_nil_iff]
      exact hb0
    have hjlt : np_argmin dists < b0_indices.length := by
      have := np_argmin_lt_length dists hdne
      omega
    refine ⟨np_argmin dists, hjlt, ?_, fun k hk => ?_, fun k hk => ?_, fun hs k hk heq => ?_⟩
    · rw [range_map_getD _ _ i hi]
    · have := np_argmin_le dists k (by omega)
      rwa [map_getD_nat _ _ _ hjlt, map_getD_nat _ _ _ hk] at this
    · have hkd : k < b0_indices.length := by omega
      have := np_argmin_first dists k hk
      rwa [map_getD_nat _ _ _ hjlt, map_getD_nat _ _ _ hkd] at this
    · rcases Nat.lt_or_ge k (np_argmin dists) with hlt | hge
      · have := np_argmin_first dists k hlt
        rw [map_getD_nat _ _ _ hjlt, map_getD_nat _ _ _ hk] at this
        omega
      · rcases Nat.eq_or_lt_of_le hge with hEq | hlt
        · rw [← hEq]
        · have h1 := List.pairwise_iff_getElem.mp hs (np_argmin dists) k hjlt hk hlt
          rwa [List.getD_eq_getElem _ _ hjlt, List.getD_eq_getElem _ _ hk]

/-- Witness for C1 at the spec's own example: 6 volumes, transforms for b0
indices `[0, 3]`. -/
theorem C1_match_transforms_witness :
    MatchTransformsClaim ["d0", "d1", "d2", "d3", "d4", "d5"] ["t0", "t1"] [0, 3] :=
  C1_match_transforms ["d0", "d1", "d2", "d3", "d4", "d5"] ["t0", "t1"] [0, 3] (by simp)

/-! ## C2 -/

theorem pyTrunc_intCast (z : ℤ) : pyTrunc (z : ℚ) = z := by simp [pyTrunc]

theorem np_squeeze_of_two_le : ∀ l : List ℚ, 2 ≤ l.length → np_squeeze l = .arr1d l
  | [], h => by simp at h
  | [_], h => by simp at h
  | _ :: _ :: _, _ => rfl

theorem flatten_map_singleton (l : List ℚ) : (l.map (fun b => [b])).flatten = l := by
  induction l with
  | nil => rfl
  | cons x xs ih => simp [ih]

/-- Counterexample for C2: the bval round trip fails for a single-row table
(`squeeze` produces a 0-d array that `np.savetxt` rejects) and truncates
non-integral b-values through the `%i` output format. -/
theorem C2_roundtrip_counterexample :
    concatenate_bvals (split_bvals [500]) ≠ .ok [500] ∧
    concatenate_bvals (split_bvals [500]) =
      .error "ValueError: Expected 1D or 2D array, got 0D array instead" ∧
    concatenate_bvals (split_bvals [3 / 2, 0]) = .ok [1, 0] ∧
    concatenate_bvals (split_bvals [3 / 2, 0]) ≠ .ok [3 / 2, 0] := by
  have h1 : concatenate_bvals (split_bvals [500]) =
      .error "ValueError: Expected 1D or 2D array, got 0D array instead" := rfl
  have hflat : (split_bvals [(3 : ℚ) / 2, 0]).flatten = [(3 : ℚ) / 2, 0] := by
    simp [split_bvals]
  have h3 : concatenate_bvals (split_bvals [3 / 2, 0]) = .ok [1, 0] := by
    rw [concatenate_bvals, hflat, np_squeeze_of_two_le _ (by simp), np_savetxt_i]
    norm_num [pyTrunc]
  refine ⟨by rw [h1]; simp, h1, h3, by rw [h3]; norm_num⟩

/-- Claim C2 amended: re-concatenating the split gradient table reproduces it
exactly provided the table has at least two rows (a single-row table fails:
`squeeze` yields a 0-d array the bval writer rejects) and every b-value is
integral (the `%i` format truncates); re-concatenating the split bvec rows is
exact for every non-empty table. -/
theorem C2_roundtrip_amended (bvals : List ℚ) (bvecs : List (List ℚ))
    (h2 : 2 ≤ bvals.length) (hint : ∀ b ∈ bvals, ∃ z : ℤ, b = (z : ℚ))
    (hne : bvecs ≠ []) :
    concatenate_bvals (split_bvals bvals) = .ok bvals ∧
    concatenate_bvecs (split_bvecs bvecs) = .ok bvecs := by
  constructor
  · rw [concatenate_bvals,
      show split_bvals bvals = bvals.map (fun b => [b]) from rfl,
      flatten_map_singleton, np_squeeze_of_two_le _ h2, np_savetxt_i]
    have hmap : ∀ b ∈ bvals, ((pyTrunc b : ℤ) : ℚ) = id b := by
      intro b hb
      obtain ⟨z, rfl⟩ := hint b hb
      rw [pyTrunc_intCast]
      rfl
    rw [List.map_congr_left hmap, List.map_id]
  · rw [concatenate_bvecs, if_neg (by simpa [split_bvecs] using hne)]
    rfl

/-- Witness for C2 at a two-row integral table. -/
theorem C2_roundtrip_witness :
    concatenate_bvals (split_bvals [0, 1000]) = .ok [0, 1000] ∧
    concatenate_bvecs (split_bvecs [[1, 0, 0], [0, 1, 0]]) = .ok [[1, 0, 0], [0, 1, 0]] :=
  C2_roundtrip_amended [0, 1000] [[1, 0, 0], [0, 1, 0]] (by simp)
    (by
      intro b hb
      simp only [List.mem_cons, List.not_mem_nil, or_false] at hb
      rcases hb with rfl | rfl
      · exact ⟨0, by norm_num⟩
      · exact ⟨1000, by norm_num⟩)
    (by simp)

/-! ## C3 -/

/-- Counterexample for C3: three volumes with two fieldwarps (neither 1 nor 3)
does not fail — the interface succeeds and silently leaves the fieldwarp stage
out of the chain. -/
theorem C3_fieldwarp_counterexample :
    composeTransformsStages ["d0", "d1", "d2"] [0] ["h0"] (some ["w0", "w1"]) "t1aff" none =
      .ok ⟨["hmc", "b0 to t1"],
           [["t1aff", "h0"], ["t1aff", "h0"], ["t1aff", "h0"]]⟩ ∧
    "fieldwarp" ∉ (["hmc", "b0 to t1"] : List String) := by
  exact ⟨rfl, by simp⟩

/-- Claim C3 amended: when the fieldwarp list length is neither 1 nor the
number of DWI volumes, `ComposeTransforms` does not fail; it behaves exactly
as if no fieldwarps had been supplied (the warps are silently dropped from
every per-volume chain). -/
theorem C3_fieldwarp_amended (dwi_files : List String) (b0_indices : List ℤ)
    (hmc : List String) (fw : List String) (t1 : String) (mni : Option (List String))
    (h1 : fw.length ≠ 1) (hN : fw.length ≠ dwi_files.length) :
    composeTransformsStages dwi_files b0_indices hmc (some fw) t1 mni =
      composeTransformsStages dwi_files b0_indices hmc none t1 mni := by
  cases hmt : match_transforms dwi_files hmc b0_indices with
  | error e => simp only [composeTransformsStages, hmt]
  | ok dwi_hmc =>
    simp only [composeTransformsStages, hmt]
    simp only [if_neg hN, if_neg h1]

/-- Witness for C3 at three volumes and two fieldwarps. -/
theorem C3_fieldwarp_witness :
    composeTransformsStages ["d0", "d1", "d2"] [0] ["h0"] (some ["w0", "w1"]) "t1aff" none =
      composeTransformsStages ["d0", "d1", "d2"] [0] ["h0"] none "t1aff" none :=
  C3_fieldwarp_amended ["d0", "d1", "d2"] [0] ["h0"] ["w0", "w1"] "t1aff" none
    (by simp) (by simp)

/-! ## C4 -/

theorem io_orientation_lpsTestImage :
    io_orientation lpsTestImage.affine = axcodes2ornt lpsCodes := by
  funext i
  fin_cases i <;>
    norm_num +decide [io_orientation, np_argmax, lin3, zeroRow, lpsTestImage, axcodes2ornt,
      lpsCodes, codeOf]

theorem aff2axcodes_lpsTestImage : aff2axcodes lpsTestImage.affine = lpsCodes := by
  rw [aff2axcodes, io_orientation_lpsTestImage]
  funext i
  fin_cases i <;> norm_num +decide [ornt2axcodes, axcodes2ornt, lpsCodes, codeOf]

theorem to_lps_lpsTestImage : to_lps lpsTestImage = lpsTestImage := by
  rw [to_lps, if_pos aff2axcodes_lpsTestImage]

/-- Claim C4 is a code bug: on an image already in `(L,P,S)` orientation with
zooms and shape matching the targets (no rescale, no resize), the derived
transform `T` does **not** satisfy `A ⋅ T ≈ A'` — the step's own
`assert np.allclose(orig_img.affine.dot(transform), target_affine)` fails,
because `ornt_xfm` is derived from `io_orientation(reoriented.affine)` (a flip
for every non-RAS reoriented image) instead of the orientation transform that
actually maps the original image onto the reoriented one. -/
theorem C4_conform_assert_fails :
    (conformRun lpsTestImage (fun _ => 1) (fun _ => 2)).assert_ok = False := by
  refine eq_false ?_
  intro h
  rw [conformRun] at h
  simp only [to_lps_lpsTestImage, io_orientation_lpsTestImage] at h
  have hz : lpsTestImage.zooms = (fun _ => 1) := rfl
  have hsh : lpsTestImage.shape = (fun _ => 2) := rfl
  have hu : lpsTestImage.xyzUnit = XyzUnit.mm := rfl
  rw [hz, hsh, hu] at h
  have hzoom : np_allclose3 (1 / 100) (fun _ => 1) (fun _ => 1) = true := by
    norm_num [np_allclose3, np_isclose]
  norm_num [hzoom] at h
  have h00 := h 0 0
  norm_num +decide [mmul4, inv_ornt_aff, undo_flip, undo_reorder, axcodes2ornt, lpsCodes,
    eye4, lpsTestImage] at h00

/-! ## C5 -/

theorem io_orientation_eye4 : io_orientation eye4 = (fun i => (i, 1)) := by
  funext i
  fin_cases i <;>
    norm_num +decide [io_orientation, np_argmax, lin3, zeroRow, eye4]

theorem aff2axcodes_rasTestImage : aff2axcodes rasTestImage.affine ≠ lpsCodes := by
  intro h
  have h0 := congrFun h 0
  rw [aff2axcodes, show rasTestImage.affine = eye4 from rfl, io_orientation_eye4] at h0
  norm_num +decide [ornt2axcodes, codeOf, lpsCodes] at h0

/-- The claimed behavior of `ConformDwi` on a non-canonical input: with a
3-row bvec table the step succeeds, output row `i` is the source row named by
the orientation transform's `i`-th `(source axis, sign)` pair scaled by that
sign, and the bvals pass through untouched; any other row count raises. -/
def ConformDwiClaim (img : NImage) (bvec_rows : List (List ℚ)) (bvals : List ℚ) : Prop :=
  (bvec_rows.length = 3 →
    ∃ rows, conformDwi img bvec_rows bvals = .ok ⟨rows, bvals⟩ ∧
      rows.length = 3 ∧
      ∀ i : Fin 3,
        rows.getD (i : ℕ) [] =
          conformDwi_flip_row
            (ornt_transform (axcodes2ornt (aff2axcodes img.affine)) (axcodes2ornt lpsCodes))
            bvec_rows i) ∧
  (bvec_rows.length ≠ 3 →
    conformDwi img bvec_rows bvals = .error "ValueError: Unrecognized bvec format")

/-- Claim C5: for a diffusion volume not already in `(L,P,S)` orientation,
`ConformDwi` permutes and sign-flips each bvec row per the orientation
transform (one `(source axis, sign)` pair per output axis), passes the bval
file through unchanged, and raises when the bvec row count does not match the
transform's dimensionality. -/
theorem C5_conform_dwi (img : NImage) (bvec_rows : List (List ℚ)) (bvals : List ℚ)
    (hnl : aff2axcodes img.affine ≠ lpsCodes) :
    ConformDwiClaim img bvec_rows bvals := by
  constructor
  · intro hlen
    simp only [conformDwi, if_neg hnl, conformDwi_flip_bvecs, hlen, ne_eq,
      not_true_eq_false, if_false]
    refine ⟨_, rfl, by simp, fun i => ?_⟩
    fin_cases i <;> rfl
  · intro hlen
    simp only [conformDwi, if_neg hnl, conformDwi_flip_bvecs, if_pos hlen]

/-- Witness for C5 at the spec's example: an `(R,A,S)` volume conformed to
`(L,P,S)` flips the first two axes, so the single bvec `(1, 0, 0)` becomes
`(-1, 0, 0)` while the bval passes through. -/
theorem C5_conform_dwi_witness :
    ConformDwiClaim rasTestImage [[1], [0], [0]] [0] ∧
    conformDwi rasTestImage [[1], [0], [0]] [0] = .ok ⟨[[-1], [0], [0]], [0]⟩ := by
  refine ⟨C5_conform_dwi rasTestImage [[1], [0], [0]] [0] aff2axcodes_rasTestImage, ?_⟩
  simp only [conformDwi, if_neg aff2axcodes_rasTestImage, conformDwi_flip_bvecs,
    List.length_cons, List.length_nil, ne_eq, if_neg]
  have hax : aff2axcodes rasTestImage.affine = ornt2axcodes (fun i => (i, 1)) := by
    rw [aff2axcodes, show rasTestImage.affine = eye4 from rfl, io_orientation_eye4]
  rw [hax]
  norm_num +decide [conformDwi_flip_row, ornt_transform, axcodes2ornt, ornt2axcodes, codeOf,
    lpsCodes]

/-! ## C6 -/

/-- The plus series of the spec's worked example: 5 volumes, b0 indices
`[0, 2]`. -/
def examplePlusSeries : RPESeries where
  dwi := ["p0", "p1", "p2", "p3", "p4"]
  bvec := ["pv0", "pv1", "pv2", "pv3", "pv4"]
  bval := ["pb0", "pb1", "pb2", "pb3", "pb4"]
  b0_images := ["p0", "p2"]
  b0_indices := [0, 2]
  hmc_affines := ["pa0", "pa1"]
  to_ref_affine := "p_to_ref"
  to_ref_warp := none

/-- The minus series of the spec's worked example: 4 volumes, b0 indices
`[0, 1]`. -/
def exampleMinusSeries : RPESeries where
  dwi := ["m0", "m1", "m2", "m3"]
  bvec := ["mv0", "mv1", "mv2", "mv3"]
  bval := ["mb0", "mb1", "mb2", "mb3"]
  b0_images := ["m0", "m1"]
  b0_indices := [0, 1]
  hmc_affines := ["ma0", "ma1"]
  to_ref_affine := "m_to_ref"
  to_ref_warp := none

/-- Claim C6: `ConcatRPESplits` concatenates every per-volume list
plus-then-minus, shifts the minus b0 indices by the plus volume count, and
tags provenance `["plus"] * P ++ ["minus"] * M`; at the spec's example
(P = 5, b0 `[0,2]`; M = 4, b0 `[0,1]`) this yields 9 volumes, b0 indices
`[0, 2, 5, 6]` and the 9 provenance tags. -/
theorem C6_concat_rpe_indexing (compose : String → List String → String → String)
    (cwd b0_ref_image : String) (plus minus : RPESeries) :
    ((concatRPESplits compose cwd b0_ref_image plus minus).dwi_files =
        plus.dwi ++ minus.dwi ∧
      (concatRPESplits compose cwd b0_ref_image plus minus).bval_files =
        plus.bval ++ minus.bval ∧
      (concatRPESplits compose cwd b0_ref_image plus minus).bvec_files =
        plus.bvec ++ minus.bvec ∧
      (concatRPESplits compose cwd b0_ref_image plus minus).b0_images =
        plus.b0_images ++ minus.b0_images ∧
      (concatRPESplits compose cwd b0_ref_image plus minus).b0_indices =
        plus.b0_indices ++ minus.b0_indices.map (fun idx => (plus.dwi.length : ℤ) + idx) ∧
      (concatRPESplits compose cwd b0_ref_image plus minus).original_grouping =
        List.replicate plus.dwi.length "plus" ++ List.replicate minus.dwi.length "minus") ∧
    ((concatRPESplits compose cwd b0_ref_image examplePlusSeries exampleMinusSeries).dwi_files.length = 9 ∧
      (concatRPESplits compose cwd b0_ref_image examplePlusSeries exampleMinusSeries).b0_indices =
        [0, 2, 5, 6] ∧
      (concatRPESplits compose cwd b0_ref_image examplePlusSeries exampleMinusSeries).original_grouping =
        ["plus", "plus", "plus", "plus", "plus", "minus", "minus", "minus", "minus"]) := by
  refine ⟨⟨rfl, rfl, rfl, rfl, rfl, rfl⟩, rfl, ?_, rfl⟩
  show ([0, 2] : List ℤ) ++ [(5 : ℤ) + 0, (5 : ℤ) + 1] = [0, 2, 5, 6]
  norm_num

/-! ## C7 -/

/-- Eigenvalues `(1, 2, 3)` as `np.linalg.eigh` would return them
(ascending). -/
def exampleEigVals : Fin 3 → ℚ := ![1, 2, 3]

/-- The identity eigenvector matrix (column `j` is the eigenvector of
`exampleEigVals j`). -/
def exampleEigVecs : M3 := fun i j => if i = j then 1 else 0

/-- The 6-component vector whose `tensor_from_vec` is `diag(1, 2, 3)`. -/
def exampleTensorVec : Fin 6 → ℚ := ![1, 0, 2, 0, 0, 3]

/-- Counterexample for C7: `decompose_tensor` orders eigenvalues descending
(largest first), not ascending, and the code extracts the **first** output
eigenvector (`evecs[:, 0]`), not the last: on eigh data
`vals = (1,2,3), vecs = I` (a valid decomposition of `diag(1,2,3)` built by
`tensor_from_vec`), the output eigenvalues are `(3,2,1)` and the stored voxel
direction is `(0,0,1)` — the eigenvector of the largest eigenvalue — while
the last output eigenvector is `(1,0,0)`. -/
theorem C7_eigvec_counterexample :
    EighSpec (tensor_from_vec exampleTensorVec) exampleEigVals exampleEigVecs ∧
    (decompose_tensor exampleEigVals exampleEigVecs).1 = ![3, 2, 1] ∧
    ¬ ((decompose_tensor exampleEigVals exampleEigVecs).1 0 ≤
        (decompose_tensor exampleEigVals exampleEigVecs).1 1) ∧
    reoriented_vector exampleEigVals exampleEigVecs = ![0, 0, 1] ∧
    col3 (decompose_tensor exampleEigVals exampleEigVecs).2 2 = ![1, 0, 0] ∧
    reoriented_vector exampleEigVals exampleEigVecs ≠
      col3 (decompose_tensor exampleEigVals exampleEigVecs).2 2 := by
  have hvals : (decompose_tensor exampleEigVals exampleEigVecs).1 = ![3, 2, 1] := by
    funext i
    fin_cases i <;>
      norm_num +decide [decompose_tensor, np_argsort3, exampleEigVals]
  have hvec : reoriented_vector exampleEigVals exampleEigVecs = ![0, 0, 1] := by
    funext i
    fin_cases i <;>
      norm_num +decide [reoriented_vector, decompose_tensor, np_argsort3, col3,
        exampleEigVals, exampleEigVecs]
  have hlast : col3 (decompose_tensor exampleEigVals exampleEigVecs).2 2 = ![1, 0, 0] := by
    funext i
    fin_cases i <;>
      norm_num +decide [decompose_tensor, np_argsort3, col3, exampleEigVals, exampleEigVecs]
  refine ⟨⟨by norm_num [exampleEigVals], by norm_num [exampleEigVals], fun j => ?_⟩,
    hvals, by rw [hvals]; norm_num, hvec, hlast, ?_⟩
  · funext i
    fin_cases j <;> fin_cases i <;>
      norm_num +decide [mulVec3, col3, tensor_from_vec, exampleEigVals, exampleEigVecs,
        exampleTensorVec]
  · rw [hvec, hlast]
    intro h
    have h0 := congrFun h 0
    norm_num at h0

/-- The amended claimed behavior of the per-voxel extraction: under the eigh
contract, the output eigenvalues are sorted descending, the voxel direction is
the first output eigenvector — an eigenvector of the **largest** eigenvalue —
and every positive rescaling of it (in particular the unit-normalized vector
the code writes) is still such an eigenvector. -/
def PrincipalDirectionClaim (v : Fin 6 → ℚ) (eigenvals : Fin 3 → ℚ) (eigenvecs : M3) : Prop :=
  (decompose_tensor eigenvals eigenvecs).1 1 ≤ (decompose_tensor eigenvals eigenvecs).1 0 ∧
  (decompose_tensor eigenvals eigenvecs).1 2 ≤ (decompose_tensor eigenvals eigenvecs).1 1 ∧
  reoriented_vector eigenvals eigenvecs = col3 eigenvecs 2 ∧
  eigenvals 2 = max (eigenvals 0) (max (eigenvals 1) (eigenvals 2)) ∧
  mulVec3 (tensor_from_vec v) (reoriented_vector eigenvals eigenvecs) =
    (fun i => eigenvals 2 * reoriented_vector eigenvals eigenvecs i) ∧
  ∀ c : ℚ,
    mulVec3 (tensor_from_vec v) (fun i => c * reoriented_vector eigenvals eigenvecs i) =
      (fun i => eigenvals 2 * (c * reoriented_vector eigenvals eigenvecs i))

/-- Claim C7 amended: for every masked voxel, the stored direction is the
(normalized) eigenvector of the largest eigenvalue of the reconstructed
symmetric tensor; the library's eigenvalue ordering is descending — largest
first — so the code takes the first eigenvector, not the last. -/
theorem C7_principal_amended (v : Fin 6 → ℚ) (eigenvals : Fin 3 → ℚ) (eigenvecs : M3)
    (hs : EighSpec (tensor_from_vec v) eigenvals eigenvecs) :
    PrincipalDirectionClaim v eigenvals eigenvecs := by
  obtain ⟨h01, h12, hvec⟩ := hs
  have hsort : np_argsort3 eigenvals = ![0, 1, 2] := by
    rw [np_argsort3, if_pos h01, if_pos h12]
  have hdir : reoriented_vector eigenvals eigenvecs = col3 eigenvecs 2 := by
    funext i
    simp [reoriented_vector, decompose_tensor, hsort, col3]
  have hmax : eigenvals 2 = max (eigenvals 0) (max (eigenvals 1) (eigenvals 2)) := by
    rw [max_eq_right h12, max_eq_right (h01.trans h12)]
  have hd0 : (decompose_tensor eigenvals eigenvecs).1 0 = max (eigenvals 2) 0 := by
    simp [decompose_tensor, hsort]
  have hd1 : (decompose_tensor eigenvals eigenvecs).1 1 = max (eigenvals 1) 0 := by
    simp [decompose_tensor, hsort]
  have hd2 : (decompose_tensor eigenvals eigenvecs).1 2 = max (eigenvals 0) 0 := by
    simp [decompose_tensor, hsort]
  refine ⟨?_, ?_, hdir, hmax, ?_, ?_⟩
  · rw [hd0, hd1]
    exact max_le_max h12 le_rfl
  · rw [hd1, hd2]
    exact max_le_max h01 le_rfl
  · rw [hdir]
    exact hvec 2
  · intro c
    funext i
    have h2 := congrFun (hvec 2) i
    rw [hdir]
    simp only [mulVec3, col3] at h2 ⊢
    linear_combination c * h2

/-- Witness for C7 on the eigh data `vals = (1,2,3), vecs = I` for
`diag(1,2,3)`. -/
theorem C7_principal_witness :
    PrincipalDirectionClaim exampleTensorVec exampleEigVals exampleEigVecs := by
  refine C7_principal_amended exampleTensorVec exampleEigVals exampleEigVecs
    ⟨by norm_num [exampleEigVals], by norm_num [exampleEigVals], fun j => ?_⟩
  funext i
  fin_cases j <;> fin_cases i <;>
    norm_num +decide [mulVec3, col3, tensor_from_vec, exampleEigVals, exampleEigVecs,
      exampleTensorVec]

/-! ## C8 -/

/-- Claim C8 is a code bug: the final assembly iterates over the collected
file *paths* and calls `.get_data()` on each `str`, so for any non-empty
volume list `local_bvec_rotation` raises `AttributeError` before stacking,
writing the 4D file, or deleting the temporaries.  Here: a single b0 volume. -/
theorem C8_local_bvec_assembly_error :
    local_bvec_rotation [fun _ => 0] ["warp.nii.gz"] "/work" =
      .error "AttributeError: str object has no attribute get_data" := by
  norm_num [local_bvec_rotation, pyStrGetData, List.mapM, List.mapM.loop]

/-! ## C9 -/

/-- Claim C9 is a code bug: with the reorient flag set and two inputs, the
interface computes the reoriented `_lps` files but then merges
`self.inputs.in_files` — the *original* inputs — so the merged series handed
to motion correction is not built from the reoriented files. -/
theorem C9_intramodal_merge_uses_originals :
    intraModalMerge [.source "a.nii", .source "b.nii"] true (fun _ => 4) (fun _ => 4) =
      .ok ⟨[.lpsOf (.source "a.nii"), .lpsOf (.source "b.nii")],
           some [.source "a.nii", .source "b.nii"],
           some (.merged [.source "a.nii", .source "b.nii"]), none⟩ ∧
    ([PFile.source "a.nii", PFile.source "b.nii"] ≠
      [PFile.lpsOf (.source "a.nii"), PFile.lpsOf (.source "b.nii")]) := by
  exact ⟨rfl, by simp⟩

/-! ## C10 -/

/-- Counterexample for C10: with one bvec and an empty transform list (the
transform list shorter than the bvec list), `bvec_rotation` does not produce a
0-column output — `np.row_stack([])` raises. -/
theorem C10_bvec_rotation_counterexample :
    bvec_rotation (fun v _ => v) [![1, 2, 3]] [] =
      .error "ValueError: need at least one array to concatenate" := rfl

/-- The amended claimed behavior of `bvec_rotation`: bvecs and transforms are
paired positionally by `zip`, extra entries of the longer list are silently
dropped, no length check is performed, and the written bvec file has
`min(len(bvecs), len(transforms))` columns. -/
def BvecRotationDrops (rotate : (Fin 3 → ℚ) → String → (Fin 3 → ℚ))
    (original_bvecs : List (Fin 3 → ℚ)) (transforms : List String) : Prop :=
  bvec_rotation rotate original_bvecs transforms =
    .ok ((original_bvecs.zip transforms).map
           (fun p => (aattp_rotate_vec rotate p.1 p.2).1),
         (original_bvecs.zip transforms).map
           (fun p => (aattp_rotate_vec rotate p.1 p.2).2)) ∧
  ((original_bvecs.zip transforms).map
      (fun p => (aattp_rotate_vec rotate p.1 p.2).1)).length =
    min original_bvecs.length transforms.length

/-- Claim C10 amended: `bvec_rotation` pairs bvec rows with transforms
positionally and raises no error on a length mismatch — extra entries are
dropped and the output has `min` columns — provided both lists are non-empty;
when the zip is empty the row-stack raises `ValueError` instead. -/
theorem C10_bvec_rotation_amended (rotate : (Fin 3 → ℚ) → String → (Fin 3 → ℚ))
    (original_bvecs : List (Fin 3 → ℚ)) (transforms : List String)
    (hb : original_bvecs ≠ []) (ht : transforms ≠ []) :
    BvecRotationDrops rotate original_bvecs transforms := by
  constructor
  · rw [bvec_rotation, if_neg]
    simp only [ne_eq, List.map_eq_nil_iff, List.zip_eq_nil_iff]
    push_neg
    exact ⟨hb, ht⟩
  · simp [List.length_zip]

/-- Witness for C10: two bvecs, one transform — succeeds with one column. -/
theorem C10_bvec_rotation_witness :
    BvecRotationDrops (fun v _ => v) [fun _ => 0, ![1, 2, 3]] ["t0"] :=
  C10_bvec_rotation_amended (fun v _ => v) [fun _ => 0, ![1, 2, 3]] ["t0"]
    (by simp) (by simp)

end QsiPrep
